import Mathlib

/-!
Verification development for the AI triage agent repository.

The definitions below are a shallow embedding of the Python source under
`app/`.  Pure functions become Lean functions; external collaborators
(the Jira REST call, the Slack Web API call, the watsonx generation
backend) are abstracted as explicit oracle parameters describing the
outcome of the single remote call the source performs; the ambient
randomness consumed by `random.randint` in the Jira mock becomes explicit
draw parameters.  Python floats are modelled as exact rationals: every
score produced by the keyword classifier is a small sum of 3/10 terms and
a single division, so ordering and normalisation behave identically.
Python dictionaries that preserve insertion order are modelled as
association lists built in the same order.
-/

/-! ## String helpers

Python's `in` operator on strings is substring containment, and
`str.lower()` on the ASCII texts used by the source lowers A..Z.
We model texts as lists of characters.
-/

/-- `startsWithL pat l` holds when `pat` is an initial segment of `l`. -/
def startsWithL : List Char → List Char → Bool
  | [], _ => true
  | _ :: _, [] => false
  | p :: ps, c :: cs => p == c && startsWithL ps cs

/-- Python's `pat in l` substring test: some tail of `l` starts with `pat`. -/
def hasSubstr : List Char → List Char → Bool
  | [], pat => startsWithL pat []
  | l@(_ :: cs), pat => startsWithL pat l || hasSubstr cs pat

/-- ASCII lower-casing of a string, as a character list (Python `str.lower()`
on the ASCII keyword data used by the source). -/
def lowerL (s : String) : List Char := s.toList.map Char.toLower

/-- Python's `s or fallback` on an optional string: the fallback is chosen
for the falsy values, i.e. both when `s` is absent (`None`) and when it is
the empty string. -/
def orStr (s : Option String) (fallback : String) : String :=
  match s with
  | some v => if v = "" then fallback else v
  | none => fallback

/-! ## `TicketClassifier` (app/services/model_service.py)

`TORCH_AVAILABLE` is false in the deployment the claims describe, so
`classify` always takes the `_classify_mock` keyword path; the model-mode
branch delegates to an external inference library and is out of scope.
-/

/-- `TicketClassifier.CATEGORIES`. -/
def CATEGORIES : List String :=
  ["billing", "technical", "access", "general", "bug_report", "feature_request"]

/-- The fixed `keywords` table of `_classify_mock`; `"general"` maps to the
empty list there, and every category of `CATEGORIES` is a key of the table,
so the `if category in keywords` guard in the source is always taken. -/
def keywordsFor : String → List String
  | "billing" =>
      ["payment", "invoice", "billing", "charge", "refund", "subscription", "price", "cost"]
  | "technical" =>
      ["error", "bug", "crash", "not working", "broken", "issue", "problem", "technical"]
  | "access" =>
      ["login", "password", "access", "account", "permission", "unauthorized", "locked"]
  | "bug_report" =>
      ["bug", "error", "crash", "broken", "defect"]
  | "feature_request" =>
      ["feature", "request", "suggestion", "improvement", "enhancement", "add"]
  | _ => []

/-- One keyword test: `keyword in text_lower`. -/
def kwHit (textLower : List Char) (kw : String) : Bool :=
  hasSubstr textLower kw.toList

/-- The per-category loop `score += 0.3` of `_classify_mock`. -/
def rawScoreFor (textLower : List Char) (category : String) : ℚ :=
  (keywordsFor category).foldl
    (fun s kw => if kwHit textLower kw then s + 3 / 10 else s) 0

/-- `scores[category] = min(score, 1.0)`, built in `CATEGORIES` order. -/
def clippedScores (textLower : List Char) : List (String × ℚ) :=
  CATEGORIES.map fun c => (c, min (rawScoreFor textLower c) 1)

/-- `total = sum(scores.values())`. -/
def totalScore (textLower : List Char) : ℚ :=
  ((clippedScores textLower).map Prod.snd).sum

/-- The normalisation step: divide by `total` when positive, otherwise set
the `"general"` entry to `1.0` in place. -/
def normScores (textLower : List Char) : List (String × ℚ) :=
  if 0 < totalScore textLower then
    (clippedScores textLower).map fun p => (p.1, p.2 / totalScore textLower)
  else
    (clippedScores textLower).map fun p => if p.1 = "general" then (p.1, (1 : ℚ)) else p

/-- Python's `max(items, key=snd)`: keeps the current maximum and replaces
it only on a strictly greater value, so the first maximum wins. -/
def maxItem : List (String × ℚ) → String × ℚ
  | [] => ("", 0)
  | p :: ps => ps.foldl (fun acc q => if acc.2 < q.2 then q else acc) p

/-- Dictionary access `scores[category]` (the key is always present). -/
def scoreLookup (scores : List (String × ℚ)) (c : String) : ℚ :=
  ((scores.find? fun p => p.1 == c).map Prod.snd).getD 0

/-- Result dictionary of `TicketClassifier._classify_mock`. -/
structure ClassifyResult where
  category : String
  confidence : ℚ
  scores : List (String × ℚ)
  model : String
deriving DecidableEq, Repr

/-- `TicketClassifier._classify_mock`. -/
def classify_mock (ticket_text : String) : ClassifyResult :=
  let textLower := lowerL ticket_text
  let scores := normScores textLower
  let top := (maxItem scores).1
  { category := top
    confidence := scoreLookup scores top
    scores := scores
    model := "mock-classifier" }

/-! ## Configuration (app/utils/config.py)

Defaults of `Settings` with no environment overrides, as in the mock-mode
deployment the spec describes.
-/

/-- `Settings.SLACK_CHANNEL_ID` default. -/
def SLACK_CHANNEL_ID : String := "#support-tickets"

/-- `Settings.JIRA_URL` default. -/
def JIRA_URL : String := "https://your-domain.atlassian.net"

/-- `Settings.JIRA_PROJECT_KEY` default. -/
def JIRA_PROJECT_KEY : String := "SUP"

/-- `Settings.WATSONX_MODEL_ID` default. -/
def WATSONX_MODEL_ID : String := "meta-llama/llama-3-8b-instruct"

/-- One entry of `Settings.CATEGORY_ROUTING` (all entries carry both keys). -/
structure RoutingConfig where
  jira_priority : String
  slack_channel : String
deriving DecidableEq, Repr

/-- `Settings.CATEGORY_ROUTING`, in source order. -/
def CATEGORY_ROUTING : List (String × RoutingConfig) :=
  [("billing", { jira_priority := "High", slack_channel := "#billing" }),
   ("technical", { jira_priority := "Medium", slack_channel := "#technical" }),
   ("access", { jira_priority := "High", slack_channel := "#access" }),
   ("general", { jira_priority := "Low", slack_channel := "#general" })]

/-- `settings.CATEGORY_ROUTING.get(category)` without a default. -/
def lookupRouting (category : String) : Option RoutingConfig :=
  (CATEGORY_ROUTING.find? fun p => p.1 == category).map Prod.snd

/-- The lookup performed by the route handler:
`settings.CATEGORY_ROUTING.get(category, {"jira_priority": "Medium",
"slack_channel": settings.SLACK_CHANNEL_ID})`. -/
def routeConfigFor (category : String) : RoutingConfig :=
  (lookupRouting category).getD
    { jira_priority := "Medium", slack_channel := SLACK_CHANNEL_ID }

/-! ## `WatsonXService` (app/services/watsonx_service.py)

With no credentials configured `self.available` is false.  The remote
`self.model.generate` call is abstracted as an oracle mapping the prompt
and token limit to either the generated text or the message of the raised
exception.  Result dictionaries whose key sets vary are modelled with
`Option` fields (`none` = key absent) plus a `mock` flag for the
`"mock": True` marker key.
-/

/-- Outcome of the single remote `self.model.generate(prompt, ...)` call. -/
inductive BackendOutcome
  | ok (generated : String)
  | err (msg : String)
deriving DecidableEq, Repr

/-- Result dictionary of `WatsonXService.generate_response` and
`_generate_mock_response`. -/
structure GenResult where
  success : Bool
  text : String
  model : Option String
  error : Option String
  mock : Bool
deriving DecidableEq, Repr

/-- `WatsonXService._generate_mock_response`. -/
def generate_mock_response (prompt : String) : GenResult :=
  let pl := lowerL prompt
  let mock_text :=
    if hasSubstr pl "suggest".toList || hasSubstr pl "response".toList then
      "Thank you for contacting us. We understand your concern and will look into this matter promptly. Our team will get back to you within 24 hours."
    else if hasSubstr pl "summar".toList then
      "Customer experiencing issue with service. Requires immediate attention from support team."
    else
      "This is a mock response. Please configure watsonx.ai credentials for actual AI-generated responses."
  { success := true, text := mock_text, model := some "mock", error := none, mock := true }

/-- `WatsonXService.generate_response`; `available` is `self.available` and
`backend` the remote-call oracle. -/
def generate_response (available : Bool) (backend : String → Nat → BackendOutcome)
    (prompt : String) (max_tokens : Nat) : GenResult :=
  if available = false then generate_mock_response prompt
  else
    match backend prompt max_tokens with
    | .ok t =>
        { success := true, text := t, model := some WATSONX_MODEL_ID,
          error := none, mock := false }
    | .err m =>
        { success := false, text := (generate_mock_response prompt).text,
          model := none, error := some m, mock := false }

/-- Prompt template of `WatsonXService.suggest_reply`. -/
def suggestPrompt (ticket_text category : String) : String :=
  "You are a helpful support agent. Generate a professional and empathetic response to this "
    ++ category ++ " support ticket.\n\nTicket:\n" ++ ticket_text ++ "\n\nResponse:"

/-- `WatsonXService.suggest_reply`. -/
def suggest_reply (available : Bool) (backend : String → Nat → BackendOutcome)
    (ticket_text category : String) : GenResult :=
  generate_response available backend (suggestPrompt ticket_text category) 300

/-- The fixed head of the `summarize_ticket` prompt template. -/
def summaryPromptHead : String :=
  "Summarize this support ticket in 2-3 sentences, highlighting the key issue and urgency.\n\nTicket:\n"

/-- The fixed tail of the `summarize_ticket` prompt template. -/
def summaryPromptTail : String := "\n\nSummary:"

/-- `WatsonXService.summarize_ticket`. -/
def summarize_ticket (available : Bool) (backend : String → Nat → BackendOutcome)
    (ticket_text : String) : GenResult :=
  generate_response available backend
    (summaryPromptHead ++ ticket_text ++ summaryPromptTail) 150

/-! ## `JiraService` (app/services/jira_service.py)

With no credentials `self.auth` is `None` and `create_issue` returns the
mock issue.  The two `random.randint` draws of `_create_mock_issue` are
ambient randomness, not call arguments; they become the explicit
parameters `r1`, `r2`, mapped into the inclusive ranges `[1000, 9999]` and
`[10000, 99999]` that `randint` produces.
-/

/-- Outcome of the remote `requests.post` issue-creation call. -/
inductive JiraRemote
  | created (key id : String)
  | httpError (status : Nat) (body : String)
  | exn (msg : String)
deriving DecidableEq, Repr

/-- Result dictionary of `JiraService.create_issue` (`none` = key absent). -/
structure JiraResult where
  success : Bool
  issue_key : Option String
  issue_id : Option String
  url : Option String
  error : Option String
  mock : Bool
deriving DecidableEq, Repr

/-- `JiraService._create_mock_issue`; the `summary`, `description` and
`priority` arguments are accepted and ignored, as in the source. -/
def create_mock_issue (summary description priority : String) (r1 r2 : Nat) : JiraResult :=
  let issue_key := JIRA_PROJECT_KEY ++ "-" ++ toString (1000 + r1 % 9000)
  { success := true
    issue_key := some issue_key
    issue_id := some ("mock-" ++ toString (10000 + r2 % 90000))
    url := some (JIRA_URL ++ "/browse/" ++ issue_key)
    error := none
    mock := true }

/-- `JiraService.create_issue`; `auth` is whether credentials are
configured, `remote` the outcome of the single REST call.  The `summary`,
`description`, `issue_type`, `priority` and `labels` arguments only feed
the remote payload. -/
def create_issue (auth : Bool) (remote : JiraRemote)
    (summary description issue_type priority : String) (labels : List String)
    (r1 r2 : Nat) : JiraResult :=
  if auth = false then create_mock_issue summary description priority r1 r2
  else
    match remote with
    | .created key id =>
        { success := true, issue_key := some key, issue_id := some id,
          url := some (JIRA_URL ++ "/browse/" ++ key), error := none, mock := false }
    | .httpError status body =>
        { success := false, issue_key := none, issue_id := none, url := none,
          error := some ("Failed to create Jira issue: " ++ toString status ++ " - " ++ body),
          mock := false }
    | .exn m =>
        { success := false, issue_key := none, issue_id := none, url := none,
          error := some m, mock := false }

/-! ## `SlackService` (app/services/slack_service.py)

With no bot token `send_message` returns the mock message.  The Block Kit
`blocks` payload only feeds the remote call and never appears in any
result dictionary, so it is not modelled.
-/

/-- Outcome of the remote `chat.postMessage` call. -/
inductive SlackRemote
  | ok (channel ts msgText : String)
  | apiError (err : String)
  | exn (msg : String)
deriving DecidableEq, Repr

/-- Result dictionary of `SlackService.send_message` (`none` = key absent;
`message_text` is the `"text"` entry of the `"message"` sub-dictionary). -/
structure SlackResult where
  success : Bool
  channel : Option String
  ts : Option String
  message_text : Option String
  error : Option String
  mock : Bool
deriving DecidableEq, Repr

/-- `SlackService._send_mock_message`; `channel or self.default_channel`
falls back on an absent or empty channel. -/
def send_mock_message (text : String) (channel : Option String) : SlackResult :=
  { success := true
    channel := some (orStr channel SLACK_CHANNEL_ID)
    ts := "1234567890.123456"
    message_text := some text
    error := none
    mock := true }

/-- `SlackService.send_message`; `token` is whether `SLACK_BOT_TOKEN` is
configured, `remote` the outcome of the single Web API call. -/
def send_message (token : Bool) (remote : SlackRemote)
    (text : String) (channel : Option String) : SlackResult :=
  if token = false then send_mock_message text channel
  else
    match remote with
    | .ok ch ts mt =>
        { success := true, channel := some ch, ts := some ts,
          message_text := some mt, error := none, mock := false }
    | .apiError e =>
        { success := false, channel := none, ts := none, message_text := none,
          error := some e, mock := false }
    | .exn m =>
        { success := false, channel := none, ts := none, message_text := none,
          error := some m, mock := false }

/-- The notification text built by `SlackService.send_ticket_notification`. -/
def notificationText (category summary : String) (jira_key : Option String) : String :=
  "New " ++ category ++ " ticket: " ++ summary ++
    (match jira_key with
     | some k => " (Jira: " ++ k ++ ")"
     | none => "")

/-- `SlackService.send_ticket_notification`: picks the target channel from
`CATEGORY_ROUTING` (falling back to the default channel), builds the
notification text, and sends it. -/
def send_ticket_notification (token : Bool) (remote : SlackRemote)
    (ticket_id category summary : String) (jira_key : Option String)
    (channel : Option String) : SlackResult :=
  let target_channel :=
    orStr channel (match lookupRouting category with
      | some cfg => cfg.slack_channel
      | none => SLACK_CHANNEL_ID)
  send_message token remote (notificationText category summary jira_key) (some target_channel)

/-! ## Route handlers (app/routes/classify.py, app/routes/route.py)

`TORCH_AVAILABLE` is false, so `classifier.classify` is `classify_mock`.
The per-request collaborator state (credential flags, remote-call
outcomes, the two random draws of the Jira mock) is collected in
`ServiceEnv`.
-/

/-- Python's `str.title()` on the ASCII category names: the first letter of
every alphabetic run is upper-cased, later letters are lower-cased. -/
def titleChars : List Char → Bool → List Char
  | [], _ => []
  | c :: cs, prevAlpha =>
      (if prevAlpha then c.toLower else c.toUpper) :: titleChars cs c.isAlpha

/-- `str.title()` as a string function. -/
def titleStr (s : String) : String := ⟨titleChars s.toList false⟩

/-- `RouteRequest` of app/routes/route.py. -/
structure RouteRequest where
  ticket_id : String
  text : String
  subject : Option String
  from_email : Option String
  create_jira : Bool
  send_slack : Bool
deriving DecidableEq, Repr

/-- `RouteResponse` of app/routes/route.py. -/
structure RouteResponse where
  ticket_id : String
  category : String
  confidence : ℚ
  jira_issue : Option JiraResult
  slack_message : Option SlackResult
  routing_config : RoutingConfig
deriving DecidableEq, Repr

/-- Per-request collaborator state: credential flags, remote-call
outcomes, and the two random draws consumed by the Jira mock. -/
structure ServiceEnv where
  jiraAuth : Bool
  jiraRemote : JiraRemote
  slackToken : Bool
  slackRemote : SlackRemote
  r1 : Nat
  r2 : Nat
deriving DecidableEq, Repr

/-- The Jira summary built by `route_ticket`:
`request.subject or f"{category.title()} Ticket: {request.ticket_id}"`
(the fallback is used for an absent or empty subject). -/
def jiraSummary (req : RouteRequest) (category : String) : String :=
  orStr req.subject (titleStr category ++ " Ticket: " ++ req.ticket_id)

/-- The Jira description built by `route_ticket`. -/
def jiraDescription (req : RouteRequest) : String :=
  "Ticket ID: " ++ req.ticket_id ++ "\n\n" ++ req.text ++
    (match req.from_email with
     | some e => "\n\nFrom: " ++ e
     | none => "")

/-- `jira_issue.get("issue_key") if jira_issue and jira_issue.get("success")
else None` of `route_ticket`. -/
def jiraKeyOf : Option JiraResult → Option String
  | some j => if j.success then j.issue_key else none
  | none => none

/-- The `route_ticket` handler body (app/routes/route.py).  Its
`try`/`except` wrapper converts an uncaught exception into an HTTP 500;
none of the embedded steps below can raise, so the handler is a total
function into `RouteResponse`. -/
def route_ticket (env : ServiceEnv) (req : RouteRequest) : RouteResponse :=
  let classification := classify_mock req.text
  let category := classification.category
  let confidence := classification.confidence
  let routing_config := routeConfigFor category
  let jira_issue : Option JiraResult :=
    if req.create_jira then
      some (create_issue env.jiraAuth env.jiraRemote
        (jiraSummary req category) (jiraDescription req) "Task"
        routing_config.jira_priority [category, "ai-triaged"] env.r1 env.r2)
    else none
  let slack_message : Option SlackResult :=
    if req.send_slack then
      some (send_ticket_notification env.slackToken env.slackRemote
        req.ticket_id category (orStr req.subject ("Ticket " ++ req.ticket_id))
        (jiraKeyOf jira_issue) none)
    else none
  { ticket_id := req.ticket_id
    category := category
    confidence := confidence
    jira_issue := jira_issue
    slack_message := slack_message
    routing_config := routing_config }

/-- Response of the `/route/batch` handler. -/
structure BatchResponse where
  processed : Nat
  results : List RouteResponse
deriving DecidableEq, Repr

/-- `route_tickets_batch`: sequentially routes each ticket; the i-th call
runs under the i-th collaborator state (each Python iteration consumes
fresh ambient randomness and performs fresh remote calls). -/
def route_tickets_batch (envs : Nat → ServiceEnv) (tickets : List RouteRequest) :
    BatchResponse :=
  let results := tickets.enum.map fun p => route_ticket (envs p.1) p.2
  { processed := results.length, results := results }

/-- `TicketRequest` of app/routes/classify.py. -/
structure TicketRequest where
  text : String
  include_suggestion : Bool
  include_summary : Bool
deriving DecidableEq, Repr

/-- `ClassificationResponse` of app/routes/classify.py. -/
structure ClassificationResponse where
  category : String
  confidence : ℚ
  scores : List (String × ℚ)
  model : String
  suggestion : Option String
  summary : Option String
deriving DecidableEq, Repr

/-- The `classify_ticket` handler body (app/routes/classify.py); like
`route_ticket` it is total, so its `except` branch (HTTP 500) is
unreachable. -/
def classify_ticket (wxAvailable : Bool) (wxBackend : String → Nat → BackendOutcome)
    (req : TicketRequest) : ClassificationResponse :=
  let classification := classify_mock req.text
  { category := classification.category
    confidence := classification.confidence
    scores := classification.scores
    model := classification.model
    suggestion :=
      if req.include_suggestion then
        some (suggest_reply wxAvailable wxBackend req.text classification.category).text
      else none
    summary :=
      if req.include_summary then
        some (summarize_ticket wxAvailable wxBackend req.text).text
      else none }

/-! ## Spec-side definitions for the refinement claim C1

These follow the spec's wording, to be compared with the source-side
`classify_mock` above: per-category raw score 0.3 per matching keyword,
clipped at 1.0, divided by the total, with the first maximum over the
fixed category list winning.
-/

/-- Claim C1's raw score as the spec words it: a weight of 0.3 for each
keyword of the category's fixed list that occurs as a substring of the
lower-cased input, clipped at 1.0. -/
def specClipped (textLower : List Char) (c : String) : ℚ :=
  min ((3 / 10 : ℚ) * ((keywordsFor c).filter (kwHit textLower)).length) 1

/-- The total of the spec-side clipped scores over the fixed category list. -/
def specTotal (textLower : List Char) : ℚ :=
  (CATEGORIES.map (specClipped textLower)).sum

/-- Claim C1's normalized score: every clipped score divided by the total. -/
def specNorm (textLower : List Char) (c : String) : ℚ :=
  specClipped textLower c / specTotal textLower

/-- First maximum of `f` over a category list, ties broken by list order
(first maximum wins), as the spec words the tie-break. -/
def firstMaxOn (f : String → ℚ) : List String → String
  | [] => ""
  | c :: cs => cs.foldl (fun acc x => if f acc < f x then x else acc) c

/-- Claim C1's returned category: the category of maximum normalized score,
ties broken by the fixed category-list order. -/
def specCategory (textLower : List Char) : String :=
  firstMaxOn (specNorm textLower) CATEGORIES

/-! ## Helper lemmas -/

/-- Unfolding of `classify_mock` into its components. -/
theorem classify_mock_eq (t : String) :
    classify_mock t =
      { category := (maxItem (normScores (lowerL t))).1
        confidence := scoreLookup (normScores (lowerL t)) (maxItem (normScores (lowerL t))).1
        scores := normScores (lowerL t)
        model := "mock-classifier" } := rfl

/-- The `score += 0.3` loop computes 0.3 times the number of matching
keywords. -/
theorem foldl_if_add (l : List String) (p : String → Bool) (a : ℚ) :
    l.foldl (fun s kw => if p kw then s + 3 / 10 else s) a =
      a + 3 / 10 * (l.filter p).length := by
  induction l generalizing a with
  | nil => simp
  | cons hd tl ih =>
      by_cases hp : p hd <;>
        simp only [List.foldl_cons, List.filter_cons, hp, if_pos, if_neg,
          Bool.false_eq_true, ite_true, ite_false, List.length_cons, ih] <;>
        push_cast <;> ring

/-- The clipped source-side score equals the spec-side clipped score. -/
theorem clip_eq_spec (tl : List Char) (c : String) :
    min (rawScoreFor tl c) 1 = specClipped tl c := by
  simp [rawScoreFor, specClipped, foldl_if_add]

/-- The source-side total equals the spec-side total. -/
theorem totalScore_eq_spec (tl : List Char) : totalScore tl = specTotal tl := by
  simp only [totalScore, clippedScores, specTotal, List.map_map, Function.comp]
  exact congrArg List.sum (congrArg (fun f => List.map f CATEGORIES)
    (funext fun c => clip_eq_spec tl c))

/-- When the total is positive, the dictionary of normalized scores is the
category list paired with the spec-side normalized scores. -/
theorem normScores_pos (tl : List Char) (h : 0 < totalScore tl) :
    normScores tl = CATEGORIES.map fun c => (c, specNorm tl c) := by
  unfold normScores clippedScores
  rw [if_pos h, List.map_map]
  exact congrArg (fun f => List.map f CATEGORIES)
    (funext fun c => by
      simp only [Function.comp]
      rw [clip_eq_spec, totalScore_eq_spec, specNorm])

/-- A fold that at each step keeps or replaces the accumulator lands in the
initial value or the list. -/
theorem foldl_mem_of_step {α : Type} (step : α → α → α)
    (hstep : ∀ a b, step a b = a ∨ step a b = b) :
    ∀ (l : List α) (init : α), l.foldl step init ∈ init :: l := by
  intro l
  induction l with
  | nil => intro init; simp
  | cons d ds ih =>
      intro init
      simp only [List.foldl_cons]
      rcases hstep init d with h | h <;> rw [h]
      · rcases List.mem_cons.mp (ih init) with h1 | h1
        · rw [h1]; exact List.mem_cons_self _ _
        · exact List.mem_cons_of_mem _ (List.mem_cons_of_mem _ h1)
      · exact List.mem_cons_of_mem _ (ih d)

/-- Python's first-max over a mapped association list computes the
spec-side first maximum together with its score. -/
theorem maxItem_map (f : String → ℚ) (c : String) (cs : List String) :
    maxItem ((c :: cs).map fun x => (x, f x)) =
      (firstMaxOn f (c :: cs), f (firstMaxOn f (c :: cs))) := by
  show (cs.map fun x => (x, f x)).foldl
      (fun acc q => if acc.2 < q.2 then q else acc) (c, f c) = _
  rw [List.foldl_map]
  show _ = (cs.foldl (fun acc x => if f acc < f x then x else acc) c,
    f (cs.foldl (fun acc x => if f acc < f x then x else acc) c))
  induction cs generalizing c with
  | nil => rfl
  | cons d ds ih =>
      simp only [List.foldl_cons]
      by_cases h : f c < f d
      · rw [if_pos h, if_pos h]
        exact ih d
      · rw [if_neg h, if_neg h]
        exact ih c

/-- The first maximum lies in the (nonempty) category list. -/
theorem firstMaxOn_mem (f : String → ℚ) (c : String) (cs : List String) :
    firstMaxOn f (c :: cs) ∈ c :: cs :=
  foldl_mem_of_step (fun acc x => if f acc < f x then x else acc)
    (fun a b => by by_cases h : f a < f b <;> simp [h]) cs c

/-- Dictionary access on a list mapped from distinct keys returns the
mapped value. -/
theorem scoreLookup_map (f : String → ℚ) (l : List String) (c : String) (hc : c ∈ l) :
    scoreLookup (l.map fun x => (x, f x)) c = f c := by
  induction l with
  | nil => cases hc
  | cons d ds ih =>
      by_cases hdc : d = c
      · subst hdc
        simp [scoreLookup, List.find?]
      · have hcds : c ∈ ds := by
          rcases List.mem_cons.mp hc with h | h
          · exact absurd h.symm hdc
          · exact h
        have hbeq : (d == c) = false := beq_eq_false_iff_ne.mpr hdc
        simpa [scoreLookup, List.find?, hbeq] using ih hcds

/-- The raw keyword score is non-negative. -/
theorem rawScoreFor_nonneg (tl : List Char) (c : String) : 0 ≤ rawScoreFor tl c := by
  rw [rawScoreFor, foldl_if_add]
  positivity

/-- Every clipped score in the dictionary is non-negative. -/
theorem clippedSnd_nonneg (tl : List Char) :
    ∀ x ∈ (clippedScores tl).map Prod.snd, 0 ≤ x := by
  intro x hx
  obtain ⟨q, hq, rfl⟩ := List.mem_map.mp hx
  obtain ⟨c, _, rfl⟩ := List.mem_map.mp hq
  exact le_min (rawScoreFor_nonneg tl c) zero_le_one

/-- The total of the clipped scores is non-negative. -/
theorem totalScore_nonneg (tl : List Char) : 0 ≤ totalScore tl :=
  List.sum_nonneg (clippedSnd_nonneg tl)

/-- When the total is not positive every clipped score is zero. -/
theorem clip_zero_of_total (tl : List Char) (h : ¬0 < totalScore tl) :
    ∀ c ∈ CATEGORIES, min (rawScoreFor tl c) 1 = 0 := by
  have htot : totalScore tl = 0 := le_antisymm (not_lt.mp h) (totalScore_nonneg tl)
  intro c hc
  have hmem : min (rawScoreFor tl c) 1 ∈ (clippedScores tl).map Prod.snd :=
    List.mem_map_of_mem Prod.snd
      (List.mem_map_of_mem (fun c => (c, min (rawScoreFor tl c) 1)) hc)
  have h1 : min (rawScoreFor tl c) 1 ≤ totalScore tl :=
    List.single_le_sum (clippedSnd_nonneg tl) _ hmem
  exact le_antisymm (htot ▸ h1) (le_min (rawScoreFor_nonneg tl c) zero_le_one)

/-- The keys of the normalized score dictionary are exactly the fixed
category list, in order. -/
theorem normScores_fst (tl : List Char) :
    (normScores tl).map Prod.fst = CATEGORIES := by
  unfold normScores clippedScores
  split
  · rw [List.map_map, List.map_map]
    rw [show ((Prod.fst ∘ fun p : String × ℚ => (p.1, p.2 / totalScore tl)) ∘
        fun c => (c, min (rawScoreFor tl c) 1)) = fun c : String => c from
      funext fun c => rfl]
    simp
  · rw [List.map_map, List.map_map]
    rw [show ((Prod.fst ∘ fun p : String × ℚ => if p.1 = "general" then (p.1, 1) else p) ∘
        fun c => (c, min (rawScoreFor tl c) 1)) = fun c : String => c from
      funext fun c => by simp only [Function.comp]; split <;> rfl]
    simp

/-- The normalized score dictionary is never empty. -/
theorem normScores_ne_nil (tl : List Char) : normScores tl ≠ [] := by
  intro hnil
  have h := normScores_fst tl
  rw [hnil] at h
  simp [CATEGORIES] at h

/-- Every normalized score lies in `[0, 1]`. -/
theorem normScores_bounds (tl : List Char) :
    ∀ p ∈ normScores tl, 0 ≤ p.2 ∧ p.2 ≤ 1 := by
  intro p hp
  by_cases h : 0 < totalScore tl
  · rw [normScores, if_pos h] at hp
    obtain ⟨q, hq, rfl⟩ := List.mem_map.mp hp
    obtain ⟨c, hc, rfl⟩ := List.mem_map.mp hq
    refine ⟨div_nonneg (le_min (rawScoreFor_nonneg tl c) zero_le_one) (le_of_lt h), ?_⟩
    rw [div_le_one h]
    exact List.single_le_sum (clippedSnd_nonneg tl) _
      (List.mem_map_of_mem Prod.snd
        (List.mem_map_of_mem (fun c => (c, min (rawScoreFor tl c) 1)) hc))
  · rw [normScores, if_neg h] at hp
    obtain ⟨q, hq, rfl⟩ := List.mem_map.mp hp
    obtain ⟨c, hc, rfl⟩ := List.mem_map.mp hq
    by_cases hg : (((c, min (rawScoreFor tl c) 1) : String × ℚ)).1 = "general"
    · rw [if_pos hg]
      exact ⟨zero_le_one, le_refl 1⟩
    · rw [if_neg hg]
      rw [show (((c, min (rawScoreFor tl c) 1) : String × ℚ)).2 =
        min (rawScoreFor tl c) 1 from rfl, clip_zero_of_total tl h c hc]
      exact ⟨le_refl 0, zero_le_one⟩

/-- The normalized scores sum to exactly 1. -/
theorem normScores_sum (tl : List Char) :
    ((normScores tl).map Prod.snd).sum = 1 := by
  by_cases h : 0 < totalScore tl
  · rw [normScores, if_pos h, List.map_map]
    have h1 : (Prod.snd ∘ fun p : String × ℚ => (p.1, p.2 / totalScore tl)) =
        fun p : String × ℚ => p.2 * (totalScore tl)⁻¹ := by
      funext p
      simp [Function.comp, div_eq_mul_inv]
    rw [h1, List.sum_map_mul_right]
    exact mul_inv_cancel₀ (ne_of_gt h)
  · have hz := clip_zero_of_total tl h
    rw [normScores, if_neg h]
    simp +decide [clippedScores, CATEGORIES,
      hz "billing" (by decide), hz "technical" (by decide), hz "access" (by decide),
      hz "general" (by decide), hz "bug_report" (by decide),
      hz "feature_request" (by decide)]

/-- The returned category is always a member of the fixed category list. -/
theorem classify_mock_category_mem (text : String) :
    (classify_mock text).category ∈ CATEGORIES := by
  have hfst := normScores_fst (lowerL text)
  have hne := normScores_ne_nil (lowerL text)
  obtain ⟨p, ps, hps⟩ := List.exists_cons_of_ne_nil hne
  have hmem : maxItem (normScores (lowerL text)) ∈ normScores (lowerL text) := by
    rw [hps]
    exact foldl_mem_of_step _
      (fun a b => by by_cases hab : a.2 < b.2 <;> simp [hab]) ps p
  show (maxItem (normScores (lowerL text))).1 ∈ CATEGORIES
  rw [← hfst]
  exact List.mem_map_of_mem Prod.fst hmem

/-! ## Claim theorems -/

/-- C1: in keyword mode, for every input whose raw-score total is non-zero,
the classifier computes per-category scores of 0.3 per keyword occurring as
a substring of the lower-cased input, clipped at 1.0 and divided by the
total; the returned category is the first maximum of the normalized scores
in the fixed category-list order and the confidence is that category's
normalized score. -/
theorem keyword_mode_matches_spec (text : String)
    (h : 0 < totalScore (lowerL text)) :
    (classify_mock text).category = specCategory (lowerL text) ∧
    (classify_mock text).confidence =
      specNorm (lowerL text) (specCategory (lowerL text)) ∧
    (classify_mock text).scores =
      CATEGORIES.map fun c => (c, specNorm (lowerL text) c) := by
  have hsc := normScores_pos (lowerL text) h
  have hmax : maxItem (normScores (lowerL text)) =
      (specCategory (lowerL text),
        specNorm (lowerL text) (specCategory (lowerL text))) := by
    rw [hsc]
    exact maxItem_map (specNorm (lowerL text)) "billing"
      ["technical", "access", "general", "bug_report", "feature_request"]
  have hcatmem : specCategory (lowerL text) ∈ CATEGORIES :=
    firstMaxOn_mem (specNorm (lowerL text)) "billing"
      ["technical", "access", "general", "bug_report", "feature_request"]
  refine ⟨?_, ?_, ?_⟩
  · show (maxItem (normScores (lowerL text))).1 = _
    rw [hmax]
  · show scoreLookup (normScores (lowerL text))
      (maxItem (normScores (lowerL text))).1 = _
    rw [hmax, hsc]
    exact scoreLookup_map (specNorm (lowerL text)) CATEGORIES _ hcatmem
  · exact hsc

/-- Witness for C1 at the input `"payment"`. -/
theorem keyword_mode_matches_spec_witness :
    0 < totalScore (lowerL "payment") ∧
    (classify_mock "payment").category = specCategory (lowerL "payment") :=
  ⟨by simp +decide [totalScore, clippedScores, rawScoreFor, CATEGORIES,
      keywordsFor, kwHit],
   (keyword_mode_matches_spec "payment"
      (by simp +decide [totalScore, clippedScores, rawScoreFor, CATEGORIES,
        keywordsFor, kwHit])).1⟩

/-- C2: for every input string, `classify` (keyword mode) returns a
category from the fixed six-element set and a scores mapping whose keys
are exactly that set, every value in `[0, 1]`, summing to 1 within 1e-6
(in the exact-rational model the sum is exactly 1); the function is total,
so it returns without raising. -/
theorem classify_scores_invariant (text : String) :
    (classify_mock text).category ∈ CATEGORIES ∧
    (classify_mock text).scores.map Prod.fst = CATEGORIES ∧
    (∀ p ∈ (classify_mock text).scores, 0 ≤ p.2 ∧ p.2 ≤ 1) ∧
    |((classify_mock text).scores.map Prod.snd).sum - 1| ≤ 1 / 1000000 := by
  refine ⟨classify_mock_category_mem text, normScores_fst (lowerL text),
    normScores_bounds (lowerL text), ?_⟩
  rw [show (classify_mock text).scores = normScores (lowerL text) from rfl,
    normScores_sum]
  norm_num

/-- Witness for C2 at the input `"payment"`. -/
theorem classify_scores_invariant_witness :
    (classify_mock "payment").category ∈ CATEGORIES ∧
    |((classify_mock "payment").scores.map Prod.snd).sum - 1| ≤ 1 / 1000000 :=
  ⟨(classify_scores_invariant "payment").1,
   (classify_scores_invariant "payment").2.2.2⟩

/-- C7: classifying the empty string returns the catch-all category
`"general"` with confidence 1.0 and every other category's score 0; the
function is total, so it does not raise. -/
theorem classify_empty_string :
    (classify_mock "").category = "general" ∧
    (classify_mock "").confidence = 1 ∧
    (classify_mock "").scores =
      [("billing", 0), ("technical", 0), ("access", 0), ("general", 1),
       ("bug_report", 0), ("feature_request", 0)] := by
  refine ⟨?_, ?_, ?_⟩ <;>
    simp +decide [classify_mock, normScores, totalScore, clippedScores, rawScoreFor,
      CATEGORIES, keywordsFor, kwHit, maxItem, scoreLookup]

/-- C3 counterexample: with identical call arguments but different ambient
random draws, `_create_mock_issue` returns different results (its issue
key and id embed `random.randint` values), so the issue-tracker mock is
not deterministic. -/
theorem jira_mock_issue_not_deterministic :
    create_mock_issue "Ticket" "desc" "Medium" 0 0 ≠
      create_mock_issue "Ticket" "desc" "Medium" 1 1 := by
  decide

/-- C3 (amended): the mock responses of the classifier, the chat notifier
and the generation backend are deterministic functions of their call
arguments (they consume no ambient randomness), while the issue-tracker
mock is deterministic only in its `success` and `mock` flags: its issue
key, id and url vary with the random draws. -/
theorem mock_determinism_amended (text ticket prompt s d pr : String)
    (channel : Option String) (r1 r2 r1' r2' : Nat) :
    send_mock_message text channel = send_mock_message text channel ∧
    generate_mock_response prompt = generate_mock_response prompt ∧
    classify_mock ticket = classify_mock ticket ∧
    (create_mock_issue s d pr r1 r2).success =
      (create_mock_issue s d pr r1' r2').success ∧
    (create_mock_issue s d pr r1 r2).mock =
      (create_mock_issue s d pr r1' r2').mock :=
  ⟨rfl, rfl, rfl, rfl, rfl⟩

/-- C4 counterexample: when the backend is available and the remote call
raises, the returned dictionary has no `model` key at all, so not every
result of `generate` carries a model string. -/
theorem generate_failure_missing_model :
    (generate_response true (fun _ _ => BackendOutcome.err "boom") "p" 200).model
      = none := rfl

/-- C4 (amended): every generation result carries a success flag and a
readable text; the model string is present on the success and mock paths
but absent from the runtime-failure result, which carries `success=false`,
the error message, and the mock fallback text — so callers can always read
`text` regardless of `success`. -/
theorem generate_failure_shape (backend : String → Nat → BackendOutcome)
    (prompt m t : String) (max_tokens : Nat) :
    (backend prompt max_tokens = BackendOutcome.err m →
      (generate_response true backend prompt max_tokens).success = false ∧
      (generate_response true backend prompt max_tokens).error = some m ∧
      (generate_response true backend prompt max_tokens).text =
        (generate_mock_response prompt).text ∧
      (generate_response true backend prompt max_tokens).model = none) ∧
    (backend prompt max_tokens = BackendOutcome.ok t →
      (generate_response true backend prompt max_tokens).success = true ∧
      (generate_response true backend prompt max_tokens).model = some WATSONX_MODEL_ID ∧
      (generate_response true backend prompt max_tokens).text = t) ∧
    (generate_response false backend prompt max_tokens).success = true ∧
    (generate_response false backend prompt max_tokens).model = some "mock" := by
  refine ⟨?_, ?_, rfl, rfl⟩
  · intro h
    refine ⟨?_, ?_, ?_, ?_⟩ <;> simp [generate_response, h]
  · intro h
    refine ⟨?_, ?_, ?_⟩ <;> simp [generate_response, h]

/-- Witness for C4: a backend whose call raises `"boom"` yields the failure
shape, and one whose call returns `"out"` yields the success shape with the
configured model id. -/
theorem generate_failure_shape_witness :
    (generate_response true (fun _ _ => BackendOutcome.err "boom") "hello" 200).error
        = some "boom" ∧
    (generate_response true (fun _ _ => BackendOutcome.err "boom") "hello" 200).model
        = none ∧
    (generate_response true (fun _ _ => BackendOutcome.ok "out") "hello" 200).model
        = some WATSONX_MODEL_ID :=
  ⟨((generate_failure_shape (fun _ _ => BackendOutcome.err "boom") "hello" "boom" "out"
      200).1 rfl).2.1,
   ((generate_failure_shape (fun _ _ => BackendOutcome.err "boom") "hello" "boom" "out"
      200).1 rfl).2.2.2,
   ((generate_failure_shape (fun _ _ => BackendOutcome.ok "out") "hello" "boom" "out"
      200).2.1 rfl).2.1⟩

/-- C6: the routing-config lookup returns the table entry unchanged for
every mapped category, and the built-in default
`{priority: Medium, channel: default channel}` for every unmapped one — in
particular for `bug_report` and `feature_request`. -/
theorem routing_lookup_default (c : String) :
    (∀ cfg, (c, cfg) ∈ CATEGORY_ROUTING → routeConfigFor c = cfg) ∧
    (lookupRouting c = none →
      routeConfigFor c = { jira_priority := "Medium", slack_channel := SLACK_CHANNEL_ID }) ∧
    routeConfigFor "bug_report" =
      { jira_priority := "Medium", slack_channel := SLACK_CHANNEL_ID } ∧
    routeConfigFor "feature_request" =
      { jira_priority := "Medium", slack_channel := SLACK_CHANNEL_ID } := by
  refine ⟨?_, ?_, by decide, by decide⟩
  · intro cfg hmem
    simp only [CATEGORY_ROUTING, List.mem_cons, List.not_mem_nil, or_false,
      Prod.mk.injEq] at hmem
    rcases hmem with ⟨h1, h2⟩ | ⟨h1, h2⟩ | ⟨h1, h2⟩ | ⟨h1, h2⟩ <;>
      subst h1 <;> subst h2 <;> decide
  · intro hnone
    rw [routeConfigFor, hnone]
    rfl

/-- Witness for C6 at a mapped and an unmapped category. -/
theorem routing_lookup_default_witness :
    routeConfigFor "billing" = { jira_priority := "High", slack_channel := "#billing" } ∧
    routeConfigFor "bug_report" =
      { jira_priority := "Medium", slack_channel := SLACK_CHANNEL_ID } :=
  ⟨(routing_lookup_default "billing").1
      { jira_priority := "High", slack_channel := "#billing" } (by decide),
   (routing_lookup_default "bug_report").2.1 (by decide)⟩

/-- A pattern that starts a list also starts any right-extension of it. -/
theorem startsWithL_append (pat m r : List Char)
    (h : startsWithL pat m = true) : startsWithL pat (m ++ r) = true := by
  induction pat generalizing m with
  | nil => rfl
  | cons p ps ih =>
      cases m with
      | nil => cases h
      | cons c cs =>
          simp only [startsWithL, List.cons_append, Bool.and_eq_true] at h ⊢
          exact ⟨h.1, ih cs h.2⟩

/-- The empty pattern is a substring of every list. -/
theorem hasSubstr_nil_pat (l : List Char) : hasSubstr l [] = true := by
  cases l <;> rfl

/-- A substring of `m` is a substring of `m ++ r`. -/
theorem hasSubstr_append_right (m r pat : List Char)
    (h : hasSubstr m pat = true) : hasSubstr (m ++ r) pat = true := by
  induction m with
  | nil =>
      cases pat with
      | nil => exact hasSubstr_nil_pat r
      | cons p ps => cases h
  | cons c cs ih =>
      simp only [hasSubstr, Bool.or_eq_true] at h
      rcases h with h | h
      · show hasSubstr (c :: (cs ++ r)) pat = true
        simp only [hasSubstr, Bool.or_eq_true]
        exact Or.inl (startsWithL_append pat (c :: cs) r h)
      · show hasSubstr (c :: (cs ++ r)) pat = true
        simp only [hasSubstr, Bool.or_eq_true]
        exact Or.inr (ih h)

/-- A substring of `m` is a substring of `l ++ m`. -/
theorem hasSubstr_append_left (l m pat : List Char)
    (h : hasSubstr m pat = true) : hasSubstr (l ++ m) pat = true := by
  induction l with
  | nil => exact h
  | cons c cs ih =>
      show hasSubstr (c :: (cs ++ m)) pat = true
      simp only [hasSubstr, Bool.or_eq_true]
      exact Or.inr ih

/-- Lower-casing distributes over string concatenation. -/
theorem lowerL_append (a b : String) : lowerL (a ++ b) = lowerL a ++ lowerL b := by
  show (a ++ b).data.map Char.toLower = a.data.map Char.toLower ++ b.data.map Char.toLower
  rw [String.data_append, List.map_append]

/-- C10: the mock-response selector inspects the whole prompt, reply
keywords before the summary keyword, so for every ticket text whose
lower-cased form contains `"suggest"` or `"response"`, `summarize_ticket`
in mock mode returns the canned empathetic-reply text rather than the
canned summary text. -/
theorem summarize_mock_reply_priority (backend : String → Nat → BackendOutcome)
    (t : String)
    (h : hasSubstr (lowerL t) "suggest".toList = true ∨
      hasSubstr (lowerL t) "response".toList = true) :
    (summarize_ticket false backend t).text =
      "Thank you for contacting us. We understand your concern and will look into this matter promptly. Our team will get back to you within 24 hours." := by
  have hp : lowerL (summaryPromptHead ++ t ++ summaryPromptTail) =
      lowerL summaryPromptHead ++ (lowerL t ++ lowerL summaryPromptTail) := by
    rw [lowerL_append, lowerL_append, List.append_assoc]
  have hcond : (hasSubstr (lowerL (summaryPromptHead ++ t ++ summaryPromptTail))
      "suggest".toList ||
    hasSubstr (lowerL (summaryPromptHead ++ t ++ summaryPromptTail))
      "response".toList) = true := by
    rw [Bool.or_eq_true, hp]
    rcases h with h | h
    · exact Or.inl (hasSubstr_append_left _ _ _ (hasSubstr_append_right _ _ _ h))
    · exact Or.inr (hasSubstr_append_left _ _ _ (hasSubstr_append_right _ _ _ h))
  have hcond' := hcond
  simp only [String.toList] at hcond'
  show (generate_mock_response (summaryPromptHead ++ t ++ summaryPromptTail)).text = _
  simp [generate_mock_response, hcond']

/-- Witness for C10 at a ticket text containing `"suggest"`. -/
theorem summarize_mock_reply_priority_witness :
    (summarize_ticket false (fun _ _ => BackendOutcome.ok "x")
        "Please suggest a workaround").text =
      "Thank you for contacting us. We understand your concern and will look into this matter promptly. Our team will get back to you within 24 hours." :=
  summarize_mock_reply_priority (fun _ _ => BackendOutcome.ok "x")
    "Please suggest a workaround" (Or.inl (by decide))

/-- A successful issue-creation result always carries an issue key. -/
theorem create_issue_key_of_success (auth : Bool) (remote : JiraRemote)
    (s d ty pr : String) (labels : List String) (r1 r2 : Nat)
    (h : (create_issue auth remote s d ty pr labels r1 r2).success = true) :
    (create_issue auth remote s d ty pr labels r1 r2).issue_key.isSome = true := by
  unfold create_issue create_mock_issue at h ⊢
  by_cases ha : auth = false
  · simp [ha]
  · simp only [ha, if_neg, Bool.false_eq_true, ite_false] at h ⊢
    cases remote <;> simp_all

/-- The attached Jira key is present exactly when the issue record is a
success (given that successful records carry a key). -/
theorem jiraKeyOf_isSome_iff (o : Option JiraResult)
    (hkey : ∀ j, o = some j → j.success = true → j.issue_key.isSome = true) :
    (jiraKeyOf o).isSome = true ↔ ∃ j, o = some j ∧ j.success = true := by
  cases o with
  | none => simp [jiraKeyOf]
  | some j =>
      by_cases hj : j.success = true
      · simp only [jiraKeyOf, hj, ite_true, Option.some.injEq]
        constructor
        · intro _; exact ⟨j, rfl, hj⟩
        · intro _; exact hkey j rfl hj
      · simp only [jiraKeyOf, hj, Bool.false_eq_true, ite_false, Option.isSome_none,
          Bool.false_eq_true, Option.some.injEq, false_iff]
        rintro ⟨j', hj', hs'⟩
        exact hj (hj' ▸ hs')

/-- C5: with no collaborator credentials configured (all services in mock
mode) the embedded classify and route handlers are total functions: for
every request they produce a well-formed 200 response whose collaborator
payloads are success-marked mocks, so the 500 branch — reached only by an
uncaught exception — never fires, and no single collaborator failure
aborts the request. -/
theorem mock_mode_no_500 (jr : JiraRemote) (sr : SlackRemote) (r1 r2 : Nat)
    (req : RouteRequest) (treq : TicketRequest)
    (backend : String → Nat → BackendOutcome) :
    (route_ticket ⟨false, jr, false, sr, r1, r2⟩ req).ticket_id = req.ticket_id ∧
    (route_ticket ⟨false, jr, false, sr, r1, r2⟩ req).category ∈ CATEGORIES ∧
    (req.create_jira = true →
      (route_ticket ⟨false, jr, false, sr, r1, r2⟩ req).jira_issue.map
          JiraResult.success = some true ∧
      (route_ticket ⟨false, jr, false, sr, r1, r2⟩ req).jira_issue.map
          JiraResult.mock = some true) ∧
    (req.send_slack = true →
      (route_ticket ⟨false, jr, false, sr, r1, r2⟩ req).slack_message.map
          SlackResult.success = some true ∧
      (route_ticket ⟨false, jr, false, sr, r1, r2⟩ req).slack_message.map
          SlackResult.mock = some true) ∧
    (classify_ticket false backend treq).category ∈ CATEGORIES := by
  refine ⟨rfl, classify_mock_category_mem req.text, ?_, ?_,
    classify_mock_category_mem treq.text⟩
  · intro hcj
    constructor <;>
      simp [route_ticket, hcj, create_issue, create_mock_issue]
  · intro hss
    constructor <;>
      simp [route_ticket, hss, send_ticket_notification, send_message,
        send_mock_message]

/-- Witness for C5 with both collaborator steps requested. -/
theorem mock_mode_no_500_witness :
    (route_ticket ⟨false, JiraRemote.exn "x", false, SlackRemote.exn "x", 5, 6⟩
      ⟨"T-1", "hello", none, none, true, true⟩).jira_issue.map
        JiraResult.mock = some true ∧
    (route_ticket ⟨false, JiraRemote.exn "x", false, SlackRemote.exn "x", 5, 6⟩
      ⟨"T-1", "hello", none, none, true, true⟩).slack_message.map
        SlackResult.mock = some true :=
  ⟨((mock_mode_no_500 (JiraRemote.exn "x") (SlackRemote.exn "x") 5 6
      ⟨"T-1", "hello", none, none, true, true⟩ ⟨"hi", false, false⟩
      (fun _ _ => BackendOutcome.ok "t")).2.2.1 rfl).2,
   ((mock_mode_no_500 (JiraRemote.exn "x") (SlackRemote.exn "x") 5 6
      ⟨"T-1", "hello", none, none, true, true⟩ ⟨"hi", false, false⟩
      (fun _ _ => BackendOutcome.ok "t")).2.2.2.1 rfl).2⟩

/-- C8: when notification is requested (observed through the mock
notifier), the message sent is built from the summary
`subject or "Ticket <id>"` — the ticket subject when present (and, as
Python truthiness has it, non-empty), otherwise `"Ticket <id>"` — with the
issue key appended exactly when the issue-creation step ran and succeeded;
and a tracker failure does not abort routing — its error payload is
attached to the response while the notification is still sent. -/
theorem slack_jira_key_attachment (env : ServiceEnv) (req : RouteRequest)
    (hs : req.send_slack = true) (hm : env.slackToken = false) :
    (route_ticket env req).slack_message =
      some (send_mock_message
        (notificationText (route_ticket env req).category
          (orStr req.subject ("Ticket " ++ req.ticket_id))
          (jiraKeyOf (route_ticket env req).jira_issue))
        (some (match lookupRouting (route_ticket env req).category with
          | some cfg => cfg.slack_channel
          | none => SLACK_CHANNEL_ID))) ∧
    ((jiraKeyOf (route_ticket env req).jira_issue).isSome = true ↔
      (req.create_jira = true ∧
        ∃ j, (route_ticket env req).jira_issue = some j ∧ j.success = true)) ∧
    (∀ msg, env.jiraAuth = true → env.jiraRemote = JiraRemote.exn msg →
      req.create_jira = true →
      (route_ticket env req).jira_issue =
        some { success := false, issue_key := none, issue_id := none, url := none,
               error := some msg, mock := false }) := by
  have hkey : ∀ j, (route_ticket env req).jira_issue = some j →
      j.success = true → j.issue_key.isSome = true := by
    intro j hj hjs
    by_cases hcj : req.create_jira = true
    · have hji : (route_ticket env req).jira_issue =
          some (create_issue env.jiraAuth env.jiraRemote
            (jiraSummary req (classify_mock req.text).category) (jiraDescription req)
            "Task" (routeConfigFor (classify_mock req.text).category).jira_priority
            [(classify_mock req.text).category, "ai-triaged"] env.r1 env.r2) := by
        simp [route_ticket, hcj]
      rw [hji] at hj
      injection hj with hj
      rw [← hj] at hjs ⊢
      exact create_issue_key_of_success _ _ _ _ _ _ _ _ _ hjs
    · have hji : (route_ticket env req).jira_issue = none := by
        simp [route_ticket, hcj]
      rw [hji] at hj
      cases hj
  refine ⟨?_, ?_, ?_⟩
  · simp only [route_ticket, hs, hm]
    simp [send_ticket_notification, send_message, orStr]
  · constructor
    · intro hsome
      obtain ⟨j, hj, hjs⟩ := (jiraKeyOf_isSome_iff _ hkey).mp hsome
      by_cases hcj : req.create_jira = true
      · exact ⟨hcj, j, hj, hjs⟩
      · have hji : (route_ticket env req).jira_issue = none := by
          simp [route_ticket, hcj]
        rw [hji] at hj
        cases hj
    · rintro ⟨_, j, hj, hjs⟩
      exact (jiraKeyOf_isSome_iff _ hkey).mpr ⟨j, hj, hjs⟩
  · intro msg hauth hremote hcj
    simp [route_ticket, hcj, create_issue, hauth, hremote]

/-- Witness for C8 with a failing tracker and notification requested. -/
theorem slack_jira_key_attachment_witness :
    ((jiraKeyOf (route_ticket
        ⟨true, JiraRemote.exn "down", false, SlackRemote.exn "x", 5, 6⟩
        ⟨"T-1", "hello", none, none, true, true⟩).jira_issue).isSome = true ↔
      (true = true ∧
        ∃ j, (route_ticket
          ⟨true, JiraRemote.exn "down", false, SlackRemote.exn "x", 5, 6⟩
          ⟨"T-1", "hello", none, none, true, true⟩).jira_issue = some j ∧
          j.success = true)) :=
  (slack_jira_key_attachment
    ⟨true, JiraRemote.exn "down", false, SlackRemote.exn "x", 5, 6⟩
    ⟨"T-1", "hello", none, none, true, true⟩ rfl rfl).2.1

/-- C9: batch routing processes every ticket: the processed count equals
the number of input tickets and the i-th result is the route response of
the i-th input ticket, so input order is preserved. -/
theorem route_batch_order (envs : Nat → ServiceEnv) (tickets : List RouteRequest) :
    (route_tickets_batch envs tickets).processed = tickets.length ∧
    (route_tickets_batch envs tickets).results.length = tickets.length ∧
    ∀ i : Nat, (route_tickets_batch envs tickets).results[i]? =
      tickets[i]?.map fun t => route_ticket (envs i) t := by
  refine ⟨?_, ?_, ?_⟩
  · simp [route_tickets_batch]
  · simp [route_tickets_batch]
  · intro i
    simp only [route_tickets_batch, List.getElem?_map, List.getElem?_enum]
    cases tickets[i]? <;> simp
